import Mathlib

/-!
Shallow embedding of the jwt-pizza-service persistence layer (src/database/database.js)
and the order / franchise HTTP route handlers, together with theorems checking the
natural-language specification against the embedded code.

The relational store is modelled as explicit lists of rows; every DB method becomes a
pure Lean function threading a DBState.  Fallible operations return Except values:
StatusCodeError models the endpointHelper StatusCodeError class, and plain models a
bare JS Error (no statusCode attached).  bcrypt is modelled deterministically: hashing
prefixes the password with a fixed tag, and compare re-hashes and compares, which
preserves exactly the properties the code relies on (compare p (hash p) = true, and
compare p h = false whenever h is the hash of a different password).
-/

/-- Row of the user table: id, name, email, password (stored as a hash). -/
structure UserRow where
  id : Nat
  name : String
  email : String
  password : String
deriving DecidableEq, Repr

/-- Row of the userRole table: (userId, role, objectId), objectId 0 is the sentinel
for unscoped roles. -/
structure UserRoleRow where
  userId : Nat
  role : String
  objectId : Nat
deriving DecidableEq, Repr

/-- Row of the auth (session) table: token to userId binding. -/
structure AuthRow where
  token : String
  userId : Nat
deriving DecidableEq, Repr

/-- Row of the menu table. -/
structure MenuRow where
  id : Nat
  title : String
  description : String
  image : String
  price : Int
deriving DecidableEq, Repr

/-- Row of the franchise table. -/
structure FranchiseRow where
  id : Nat
  name : String
deriving DecidableEq, Repr

/-- Row of the store table. -/
structure StoreRow where
  id : Nat
  franchiseId : Nat
  name : String
deriving DecidableEq, Repr

/-- Row of the dinerOrder table (order header; the date column is omitted, no claim
mentions it). -/
structure DinerOrderRow where
  id : Nat
  dinerId : Nat
  franchiseId : Nat
  storeId : Nat
deriving DecidableEq, Repr

/-- Row of the orderItem table. -/
structure OrderItemRow where
  id : Nat
  orderId : Nat
  menuId : Nat
  description : String
  price : Int
deriving DecidableEq, Repr

/-- The whole relational store, plus auto-increment counters for the tables whose
insertId the code uses. -/
structure DBState where
  user : List UserRow
  userRole : List UserRoleRow
  auth : List AuthRow
  menu : List MenuRow
  franchise : List FranchiseRow
  store : List StoreRow
  dinerOrder : List DinerOrderRow
  orderItem : List OrderItemRow
  nextOrderId : Nat
  nextOrderItemId : Nat
  nextFranchiseId : Nat
deriving DecidableEq, Repr

/-- Error model: StatusCodeError from endpointHelper carries a message and a status
code. -/
structure StatusCodeError where
  message : String
  statusCode : Nat
deriving DecidableEq, Repr

/-- A thrown JS error is either a StatusCodeError or a bare Error (message only). -/
inductive JsError where
  | statusCode (e : StatusCodeError)
  | plain (message : String)
deriving DecidableEq, Repr

/-- Deterministic model of bcrypt.hash(password, 10). -/
def bcryptHash (password : String) : String :=
  "bcrypt$" ++ password

/-- Deterministic model of bcrypt.compare(password, hash). -/
def bcryptCompare (password hash : String) : Bool :=
  hash == bcryptHash password

/-- JS truthiness of an optional string argument: undefined and the empty string are
falsy. -/
def jsTruthy : Option String → Bool
  | none => false
  | some s => s != ""

/-- Model of the JS String.prototype.split with a single-character separator, on the
character list of the string: splitting the empty list yields one empty group, and
each separator occurrence ends the current group. -/
def splitCharList (sep : Char) : List Char → List (List Char)
  | [] => [[]]
  | c :: rest =>
    let r := splitCharList sep rest
    if c == sep then [] :: r
    else
      match r with
      | [] => [[c]]
      | g :: gs => (c :: g) :: gs

/-- Embedding of DB.getTokenSignature: split the token on dots; if there are more
than two parts return parts[2], else the empty string. -/
def getTokenSignature (token : String) : String :=
  let parts := (splitCharList '.' token.toList).map (fun cs => String.mk cs)
  if parts.length > 2 then parts.getD 2 "" else ""

/-- Embedding of DB.isLoggedIn: SELECT userId FROM auth WHERE token=? and test that
the result set is nonempty. -/
def isLoggedIn (s : DBState) (token : String) : Bool :=
  decide ((s.auth.filter (fun a => a.token == token)).length > 0)

/-- Embedding of DB.logoutUser: DELETE FROM auth WHERE token=?; never throws. -/
def logoutUser (s : DBState) (token : String) : Except JsError Unit × DBState :=
  (Except.ok (), { s with auth := s.auth.filter (fun a => a.token != token) })

/-- Embedding of DB.loginUser: INSERT INTO auth (token, userId). -/
def loginUser (s : DBState) (userId : Nat) (token : String) : DBState :=
  { s with auth := s.auth ++ [⟨token, userId⟩] }

/-- View of a role assignment as returned by DB.getUser (objectId 0 collapses to
undefined). -/
structure RoleView where
  role : String
  objectId : Option Nat
deriving DecidableEq, Repr

/-- View of a user as returned by DB.getUser (password redacted). -/
structure UserView where
  id : Nat
  name : String
  email : String
  roles : List RoleView
deriving DecidableEq, Repr

/-- Embedding of DB.getUser(email, password).  The parameters are Options because
DB.updateUser forwards possibly undefined arguments to it: an undefined email makes
the parameterized SELECT throw (mysql2 rejects undefined bind parameters), and an
undefined password makes bcrypt.compare throw; a missing user or a hash mismatch
both throw the same StatusCodeError with message unknown user and status 404. -/
def getUser (s : DBState) (email : Option String) (password : Option String) :
    Except JsError UserView :=
  match email with
  | none => Except.error (JsError.plain "Bind parameters must not contain undefined")
  | some e =>
    match s.user.find? (fun r => r.email == e) with
    | none => Except.error (JsError.statusCode ⟨"unknown user", 404⟩)
    | some u =>
      match password with
      | none => Except.error (JsError.plain "data and hash arguments required")
      | some p =>
        if bcryptCompare p u.password then
          Except.ok
            { id := u.id, name := u.name, email := u.email,
              roles :=
                (s.userRole.filter (fun r => r.userId == u.id)).map
                  (fun r =>
                    { role := r.role,
                      objectId := if r.objectId == 0 then none else some r.objectId }) }
        else Except.error (JsError.statusCode ⟨"unknown user", 404⟩)

/-- The per-row effect of the UPDATE statement built by DB.updateUser: a truthy
password replaces the stored hash, a truthy email replaces the email. -/
def applyUserUpdates (email password : Option String) (r : UserRow) : UserRow :=
  let r1 :=
    match password with
    | some p => if p != "" then { r with password := bcryptHash p } else r
    | none => r
  match email with
  | some e => if e != "" then { r1 with email := e } else r1
  | none => r1

/-- Embedding of DB.updateUser(userId, email, password): run the UPDATE (only when at
least one field is truthy, WHERE id=userId), then return this.getUser(email,
password) evaluated against the updated store. -/
def updateUser (s : DBState) (userId : Nat) (email password : Option String) :
    Except JsError UserView × DBState :=
  let s1 :=
    if jsTruthy password || jsTruthy email then
      { s with
        user := s.user.map (fun r =>
          if r.id == userId then applyUserUpdates email password r else r) }
    else s
  (getUser s1 email password, s1)

/-- Decoded JWT payload carried by a bearer token. -/
structure JwtPayload where
  userId : Nat
  roles : List RoleView
deriving DecidableEq, Repr

/-- Request identity after the authentication step: absent, faulted (infrastructure
error during verification), or a present payload. -/
inductive Identity where
  | absent
  | faulted
  | present (payload : JwtPayload)
deriving DecidableEq, Repr

/-- Modelled from the spec: the Auth Session Manager Authenticate step (the
authRouter setAuthUser middleware is not among the provided source files).  Per the
spec: with no bearer token the identity stays unset; otherwise the signature is
verified (the verify argument abstracts jwt.verify, returning the decoded payload
exactly when the signature is valid), and even a signature-valid token is treated as
unauthenticated unless the Session Store isActive check (DB.isLoggedIn, which is in
the sources and is embedded above) confirms an active session. -/
def authenticate (s : DBState) (token : Option String)
    (verify : String → Option JwtPayload) : Identity :=
  match token with
  | none => Identity.absent
  | some t =>
    match verify t with
    | none => Identity.absent
    | some payload => if isLoggedIn s t then Identity.present payload else Identity.absent

/-- Embedding of DB.getID specialised to the call made by DB.addDinerOrder: SELECT id
FROM menu WHERE id=?, returning rows[0].id when the result set is nonempty and
throwing a bare Error with message No ID found otherwise. -/
def getIdMenu (s : DBState) (value : Nat) : Except JsError Nat :=
  match s.menu.filter (fun r => r.id == value) with
  | [] => Except.error (JsError.plain "No ID found")
  | r :: _ => Except.ok r.id

/-- An item of an incoming order request. -/
structure OrderItemReq where
  menuId : Nat
  description : String
  price : Int
deriving DecidableEq, Repr

/-- An incoming order request body. -/
structure OrderReq where
  franchiseId : Nat
  storeId : Nat
  items : List OrderItemReq
deriving DecidableEq, Repr

/-- The order object DB.addDinerOrder returns: the request spread together with the
new insertId. -/
structure OrderResult where
  franchiseId : Nat
  storeId : Nat
  items : List OrderItemReq
  id : Nat
deriving DecidableEq, Repr

/-- The item-insertion loop of DB.addDinerOrder: for each item, resolve its menuId
through getID against the menu table and insert an orderItem row; the first
unresolvable reference throws out of the loop, leaving every row inserted so far in
place (there is no transaction around this sequence). -/
def insertOrderItems (s : DBState) (orderId : Nat) :
    List OrderItemReq → Except JsError Unit × DBState
  | [] => (Except.ok (), s)
  | item :: rest =>
    match getIdMenu s item.menuId with
    | Except.error e => (Except.error e, s)
    | Except.ok menuId =>
      let s1 :=
        { s with
          orderItem :=
            s.orderItem ++ [⟨s.nextOrderItemId, orderId, menuId, item.description, item.price⟩],
          nextOrderItemId := s.nextOrderItemId + 1 }
      insertOrderItems s1 orderId rest

/-- Embedding of DB.addDinerOrder: first INSERT the dinerOrder header row, then run
the item loop; a failure in the loop propagates with the header row (and any items
inserted before the failure) already persisted. -/
def addDinerOrder (s : DBState) (user : UserView) (order : OrderReq) :
    Except JsError OrderResult × DBState :=
  let orderId := s.nextOrderId
  let s1 :=
    { s with
      dinerOrder := s.dinerOrder ++ [⟨orderId, user.id, order.franchiseId, order.storeId⟩],
      nextOrderId := s.nextOrderId + 1 }
  match insertOrderItems s1 orderId order.items with
  | (Except.error e, s2) => (Except.error e, s2)
  | (Except.ok _, s2) => (Except.ok ⟨order.franchiseId, order.storeId, order.items, orderId⟩, s2)

/-- Response of the external factory (Fulfillment Service) as observed by the route:
the ok flag of the HTTP response and the jwt / reportUrl fields of its JSON body. -/
structure FactoryResponse where
  ok : Bool
  jwt : Option String
  reportUrl : Option String
deriving DecidableEq, Repr

/-- Body of the createOrder route response. -/
structure CreateOrderBody where
  message : Option String
  order : Option OrderResult
  jwt : Option String
  reportUrl : Option String
deriving DecidableEq, Repr

/-- An HTTP response: status code and body. -/
structure HttpResponse where
  status : Nat
  body : CreateOrderBody
deriving DecidableEq, Repr

/-- Embedding of the createOrder handler (orderRouter POST on the order path): persist
via DB.addDinerOrder, then call the factory; on r.ok send 200 with order, jwt and
reportUrl; otherwise send 500 with the failure message and the reportUrl from the
factory body.  The factory response is a parameter; nothing after the persistence
step modifies the store, so the order row is never rolled back. -/
def createOrderHandler (s : DBState) (user : UserView) (orderReq : OrderReq)
    (factory : FactoryResponse) : Except JsError HttpResponse × DBState :=
  match addDinerOrder s user orderReq with
  | (Except.error e, s1) => (Except.error e, s1)
  | (Except.ok order, s1) =>
    if factory.ok then
      (Except.ok ⟨200, ⟨none, some order, factory.jwt, factory.reportUrl⟩⟩, s1)
    else
      (Except.ok ⟨500, ⟨some "Failed to fulfill order at factory", none, none, factory.reportUrl⟩⟩, s1)

/-- The three DELETE statements inside the DB.deleteFranchise transaction. -/
inductive DeleteStep where
  | stores
  | roles
  | franchiseRow
deriving DecidableEq, Repr

/-- Effect of one DELETE statement of DB.deleteFranchise on the working state of the
transaction. -/
def runDeleteStep (fid : Nat) (w : DBState) : DeleteStep → DBState
  | DeleteStep.stores => { w with store := w.store.filter (fun st => st.franchiseId != fid) }
  | DeleteStep.roles => { w with userRole := w.userRole.filter (fun r => r.objectId != fid) }
  | DeleteStep.franchiseRow => { w with franchise := w.franchise.filter (fun f => f.id != fid) }

/-- The transaction body of DB.deleteFranchise: run the DELETE statements in order on
a working state; the failAt oracle models an infrastructure failure of one statement
(the statement throws instead of taking effect). -/
def runDeleteTransaction (fid : Nat) (failAt : Option DeleteStep) (w : DBState) :
    List DeleteStep → Except JsError DBState
  | [] => Except.ok w
  | step :: rest =>
    if failAt == some step then Except.error (JsError.plain "db failure")
    else runDeleteTransaction fid failAt (runDeleteStep fid w step) rest

/-- Embedding of DB.deleteFranchise: beginTransaction, the three DELETEs, commit; any
failure inside the try block triggers rollback (the pre-transaction state is kept)
and a StatusCodeError (unable to delete franchise, 500) is thrown. -/
def deleteFranchise (s : DBState) (fid : Nat) (failAt : Option DeleteStep) :
    Except JsError Unit × DBState :=
  match runDeleteTransaction fid failAt s
      [DeleteStep.stores, DeleteStep.roles, DeleteStep.franchiseRow] with
  | Except.ok w => (Except.ok (), w)
  | Except.error _ => (Except.error (JsError.statusCode ⟨"unable to delete franchise", 500⟩), s)

/-- Modelled from the spec: user.isRole(role) (model/model.js is not among the
provided source files); the spec describes it as a membership test of the role kind
in the identity role-assignment set. -/
def isRole (u : UserView) (role : String) : Bool :=
  u.roles.any (fun r => r.role == role)

/-- Admin view of a franchise admin as produced by the DB.getFranchise JOIN (user id,
name, email). -/
structure FranchiseAdminView where
  id : Nat
  name : String
  email : String
deriving DecidableEq, Repr

/-- Store view with derived total revenue, as produced by DB.getFranchise. -/
structure StoreRevenueView where
  id : Nat
  name : String
  totalRevenue : Int
deriving DecidableEq, Repr

/-- Enriched franchise detail returned to Admin callers. -/
structure EnrichedFranchiseView where
  id : Nat
  name : String
  admins : List FranchiseAdminView
  stores : List StoreRevenueView
deriving DecidableEq, Repr

/-- Public store view (id and name only). -/
structure PublicStoreView where
  id : Nat
  name : String
deriving DecidableEq, Repr

/-- Reduced public franchise view: id, name and public stores; no admins field and no
revenue. -/
structure PublicFranchiseView where
  id : Nat
  name : String
  stores : List PublicStoreView
deriving DecidableEq, Repr

/-- Result shape of DB.getFranchises: enriched detail or the reduced public view. -/
inductive FranchisesResult where
  | enriched (franchises : List EnrichedFranchiseView)
  | reduced (franchises : List PublicFranchiseView)
deriving DecidableEq, Repr

/-- Revenue of a store as computed by the DB.getFranchise SQL: the sum of the prices
of order items joined to diner orders of that store (COALESCE to 0 when there are
none). -/
def storeRevenue (s : DBState) (storeId : Nat) : Int :=
  (s.orderItem.filter
      (fun oi => s.dinerOrder.any (fun o => o.id == oi.orderId && o.storeId == storeId))).foldl
    (fun acc oi => acc + oi.price) 0

/-- Embedding of DB.getFranchise: attach the admins (userRole rows with role
franchisee scoped to this franchise, joined to user) and the stores with their
derived totalRevenue. -/
def getFranchise (s : DBState) (f : FranchiseRow) : EnrichedFranchiseView :=
  { id := f.id, name := f.name,
    admins :=
      (s.userRole.filter (fun r => r.objectId == f.id && r.role == "franchisee")).filterMap
        (fun r => (s.user.find? (fun u => u.id == r.userId)).map
          (fun u => ⟨u.id, u.name, u.email⟩)),
    stores :=
      (s.store.filter (fun st => st.franchiseId == f.id)).map
        (fun st => ⟨st.id, st.name, storeRevenue s st.id⟩) }

/-- Embedding of DB.getFranchises(authUser): list the franchises; when the caller
holds the Admin role each franchise is enriched via DB.getFranchise, otherwise only
the id/name store rows are attached (the optional-chaining guard makes an absent
caller take the non-admin branch). -/
def getFranchises (s : DBState) (authUser : Option UserView) : FranchisesResult :=
  if (match authUser with
      | some u => isRole u "admin"
      | none => false) then
    FranchisesResult.enriched (s.franchise.map (getFranchise s))
  else
    FranchisesResult.reduced
      (s.franchise.map (fun f =>
        ⟨f.id, f.name,
          (s.store.filter (fun st => st.franchiseId == f.id)).map
            (fun st => ⟨st.id, st.name⟩)⟩))

/-- Admin entry of an incoming createFranchise request (email only; id and name are
filled in by the validation loop). -/
structure FranchiseAdminReq where
  email : String
deriving DecidableEq, Repr

/-- Incoming createFranchise request body. -/
structure FranchiseReq where
  name : String
  admins : List FranchiseAdminReq
deriving DecidableEq, Repr

/-- The franchise object DB.createFranchise returns. -/
structure CreatedFranchise where
  id : Nat
  name : String
  admins : List FranchiseAdminView
deriving DecidableEq, Repr

/-- The validation loop of DB.createFranchise: each admin email is resolved against
the user table (SELECT id, name FROM user WHERE email=?); an unresolvable email
throws a StatusCodeError 404 naming that email; a resolvable one is enriched with
the found id and name. -/
def resolveFranchiseAdmins (s : DBState) :
    List FranchiseAdminReq → Except JsError (List FranchiseAdminView)
  | [] => Except.ok []
  | a :: rest =>
    match s.user.find? (fun u => u.email == a.email) with
    | none =>
      Except.error (JsError.statusCode
        ⟨"unknown user for franchise admin " ++ a.email ++ " provided", 404⟩)
    | some u =>
      match resolveFranchiseAdmins s rest with
      | Except.error e => Except.error e
      | Except.ok vs => Except.ok (⟨u.id, u.name, a.email⟩ :: vs)

/-- Embedding of DB.createFranchise: validate every admin email first; only after the
whole loop succeeds INSERT the franchise row and then one Franchisee userRole row per
admin. -/
def createFranchise (s : DBState) (fr : FranchiseReq) :
    Except JsError CreatedFranchise × DBState :=
  match resolveFranchiseAdmins s fr.admins with
  | Except.error e => (Except.error e, s)
  | Except.ok admins =>
    let fid := s.nextFranchiseId
    let s1 :=
      { s with
        franchise := s.franchise ++ [(⟨fid, fr.name⟩ : FranchiseRow)],
        nextFranchiseId := s.nextFranchiseId + 1 }
    let s2 :=
      { s1 with
        userRole := s1.userRole ++ admins.map (fun a => (⟨a.id, "franchisee", fid⟩ : UserRoleRow)) }
    (Except.ok ⟨fid, fr.name, admins⟩, s2)

/-! Concrete example states and requests used by the witness and counterexample
theorems below. -/

/-- Example store: one registered user with one session, empty menu. -/
def exSt : DBState :=
  { user := [⟨1, "n", "a@x.com", bcryptHash "p"⟩],
    userRole := [⟨1, "diner", 0⟩],
    auth := [⟨"tok1", 1⟩],
    menu := [], franchise := [], store := [], dinerOrder := [], orderItem := [],
    nextOrderId := 10, nextOrderItemId := 20, nextFranchiseId := 30 }

/-- Example store with one menu item, for the order-flow theorems. -/
def exStMenu : DBState :=
  { exSt with menu := [⟨1, "Veggie", "A garden of delight", "pizza1.png", 3⟩] }

/-- Example diner identity. -/
def exDiner : UserView :=
  ⟨1, "n", "a@x.com", [⟨"diner", none⟩]⟩

/-- Order request whose single item resolves in exStMenu. -/
def exGoodReq : OrderReq :=
  ⟨5, 6, [⟨1, "Veggie", 3⟩]⟩

/-- Order request whose single item references menu id 99, unresolvable in exSt. -/
def exBadReq : OrderReq :=
  ⟨5, 6, [⟨99, "d", 3⟩]⟩

/-- Factory response with ok = false and a report URL. -/
def exFactFail : FactoryResponse :=
  ⟨false, none, some "http://report.example"⟩

/-- Example store with a franchise, its store, a second franchise store, and a
franchisee role, for the franchise theorems. -/
def exDel : DBState :=
  { user := [⟨1, "n", "a@x.com", bcryptHash "p"⟩],
    userRole := [⟨1, "franchisee", 1⟩, ⟨1, "diner", 0⟩],
    auth := [],
    menu := [],
    franchise := [⟨1, "pizzaPocket"⟩, ⟨2, "otherF"⟩],
    store := [⟨1, 1, "SLC"⟩, ⟨2, 2, "NYC"⟩],
    dinerOrder := [], orderItem := [],
    nextOrderId := 10, nextOrderItemId := 20, nextFranchiseId := 30 }

/-- Example caller holding the Admin role. -/
def exAdminUser : UserView :=
  ⟨1, "a", "a@x.com", [⟨"admin", none⟩]⟩

/-! Theorems settling the claims. -/

/-- Claim C7, counterexample: on the token abc.def.ghi.jkl, whose split has four
segments, getTokenSignature returns the third segment ghi rather than the empty
string the claim requires for every segment count other than exactly three.  (The
repository test suite expects exactly this value.) -/
theorem getTokenSignature_four_segments_cex :
    getTokenSignature "abc.def.ghi.jkl" = "ghi" ∧ getTokenSignature "abc.def.ghi.jkl" ≠ "" :=
  ⟨by decide, by decide⟩

/-- Claim C7 (amended): getTokenSignature returns the third dot-separated segment
whenever splitting yields at least three segments, and the empty string when it
yields fewer than three. -/
theorem getTokenSignature_spec (token : String) :
    getTokenSignature token =
      match (splitCharList '.' token.toList).map (fun cs => String.mk cs) with
      | _ :: _ :: c :: _ => c
      | _ => "" := by
  show (if ((splitCharList '.' token.toList).map (fun cs => String.mk cs)).length > 2
      then ((splitCharList '.' token.toList).map (fun cs => String.mk cs)).getD 2 ""
      else "") = _
  generalize (splitCharList '.' token.toList).map (fun cs => String.mk cs) = l
  match l with
  | [] => rfl
  | [a] => rfl
  | [a, b] => rfl
  | a :: b :: c :: rest => simp [List.getD]

/-- Claim C9: logging out a token with no session row is a no-op returning no error,
and logging out twice is the same as logging out once. -/
theorem logoutUser_idempotent_noop (s : DBState) (t : String) :
    ((∀ a ∈ s.auth, a.token ≠ t) → logoutUser s t = (Except.ok (), s))
    ∧ logoutUser (logoutUser s t).2 t = logoutUser s t := by
  constructor
  · intro h
    unfold logoutUser
    have hf : s.auth.filter (fun a => a.token != t) = s.auth :=
      List.filter_eq_self.mpr (fun a ha => by simpa using h a ha)
    rw [hf]
  · unfold logoutUser
    have hf : (s.auth.filter (fun a => a.token != t)).filter (fun a => a.token != t)
        = s.auth.filter (fun a => a.token != t) := by
      rw [List.filter_filter]
      simp
    rw [hf]

/-- Claim C9 witness: concrete no-op on an absent token and concrete idempotence. -/
theorem logoutUser_idempotent_noop_witness :
    logoutUser exSt "ghost" = (Except.ok (), exSt)
    ∧ logoutUser (logoutUser exSt "tok1").2 "tok1" = logoutUser exSt "tok1" :=
  ⟨(logoutUser_idempotent_noop exSt "ghost").1 (by decide),
   (logoutUser_idempotent_noop exSt "tok1").2⟩

/-- Helper: a token with no auth row is not logged in. -/
theorem isLoggedIn_false_of_absent (s : DBState) (t : String)
    (h : ∀ a ∈ s.auth, a.token ≠ t) : isLoggedIn s t = false := by
  unfold isLoggedIn
  have hf : s.auth.filter (fun a => a.token == t) = [] :=
    List.filter_eq_nil_iff.mpr (fun a ha => by simpa using h a ha)
  simp [hf]

/-- Helper: after logoutUser no auth row carries the token. -/
theorem logout_no_session (s : DBState) (t : String) :
    ∀ a ∈ (logoutUser s t).2.auth, a.token ≠ t := by
  intro a ha
  unfold logoutUser at ha
  have := List.mem_filter.mp ha
  simpa using this.2

/-- Claim C3: a token absent from the Session Store is never authenticated, whatever
the signature verifier returns for it (in particular when it reports the signature
valid), and after Logout the same token is treated as absent; session activity is a
required check independent of signature validity. -/
theorem authenticate_requires_active_session (s : DBState) (t : String)
    (verify : String → Option JwtPayload) :
    ((∀ a ∈ s.auth, a.token ≠ t) → authenticate s (some t) verify = Identity.absent)
    ∧ authenticate (logoutUser s t).2 (some t) verify = Identity.absent := by
  constructor
  · intro h
    have hl := isLoggedIn_false_of_absent s t h
    cases hv : verify t with
    | none => simp [authenticate, hv]
    | some payload => simp [authenticate, hv, hl]
  · have hl := isLoggedIn_false_of_absent (logoutUser s t).2 t (logout_no_session s t)
    cases hv : verify t with
    | none => simp [authenticate, hv]
    | some payload => simp [authenticate, hv, hl]

/-- Claim C3 witness: a verifier that accepts every signature still yields an absent
identity, both for a token never in the store and for a token just logged out. -/
theorem authenticate_requires_active_session_witness :
    authenticate exSt (some "h.p.sig") (fun _ => some ⟨1, [⟨"diner", none⟩]⟩) = Identity.absent
    ∧ authenticate (logoutUser exSt "tok1").2 (some "tok1")
        (fun _ => some ⟨1, [⟨"diner", none⟩]⟩) = Identity.absent :=
  ⟨(authenticate_requires_active_session exSt "h.p.sig"
      (fun _ => some ⟨1, [⟨"diner", none⟩]⟩)).1 (by decide),
   (authenticate_requires_active_session exSt "tok1"
      (fun _ => some ⟨1, [⟨"diner", none⟩]⟩)).2⟩

/-- Claim C4: Login failure by unknown email and Login failure by password mismatch
produce the identical error value (unknown user, 404), so the two causes are
indistinguishable to the caller. -/
theorem getUser_failure_indistinguishable (s : DBState) (e p : String)
    (h : s.user.find? (fun r => r.email == e) = none
      ∨ ∃ u, s.user.find? (fun r => r.email == e) = some u
          ∧ bcryptCompare p u.password = false) :
    getUser s (some e) (some p) = Except.error (JsError.statusCode ⟨"unknown user", 404⟩) := by
  rcases h with h | ⟨u, hu, hc⟩
  · simp [getUser, h]
  · simp [getUser, hu, hc]

/-- Claim C4 witness: with one stored user, an unknown email and a wrong password
both return exactly the unknown user 404 error. -/
theorem getUser_failure_indistinguishable_witness :
    getUser exSt (some "nobody@x.com") (some "p")
      = Except.error (JsError.statusCode ⟨"unknown user", 404⟩)
    ∧ getUser exSt (some "a@x.com") (some "wrong")
      = Except.error (JsError.statusCode ⟨"unknown user", 404⟩) :=
  ⟨getUser_failure_indistinguishable exSt "nobody@x.com" "p" (Or.inl (by decide)),
   getUser_failure_indistinguishable exSt "a@x.com" "wrong"
     (Or.inr ⟨⟨1, "n", "a@x.com", bcryptHash "p"⟩, by decide, by decide⟩)⟩

/-- Claim C5: deleteFranchise is atomic: when no statement fails, the stores, the
role assignments and the franchise row are all removed together; when any of the
three statements fails, the whole state is rolled back unchanged and the call fails
with the StatusCodeError unable to delete franchise, 500. -/
theorem deleteFranchise_atomic (s : DBState) (fid : Nat) (failAt : Option DeleteStep) :
    (failAt = none →
      deleteFranchise s fid failAt =
        (Except.ok (),
          { s with
            store := s.store.filter (fun st => st.franchiseId != fid),
            userRole := s.userRole.filter (fun r => r.objectId != fid),
            franchise := s.franchise.filter (fun f => f.id != fid) }))
    ∧ ∀ step, failAt = some step →
        deleteFranchise s fid failAt =
          (Except.error (JsError.statusCode ⟨"unable to delete franchise", 500⟩), s) := by
  constructor
  · rintro rfl
    rfl
  · rintro step rfl
    cases step <;> rfl

/-- Claim C5 witness: concrete full deletion on success, and concrete rollback with
the 500 error when the role-deletion statement fails. -/
theorem deleteFranchise_atomic_witness :
    deleteFranchise exDel 1 none =
      (Except.ok (),
        { exDel with
          store := exDel.store.filter (fun st => st.franchiseId != 1),
          userRole := exDel.userRole.filter (fun r => r.objectId != 1),
          franchise := exDel.franchise.filter (fun f => f.id != 1) })
    ∧ deleteFranchise exDel 1 (some DeleteStep.roles) =
        (Except.error (JsError.statusCode ⟨"unable to delete franchise", 500⟩), exDel) :=
  ⟨(deleteFranchise_atomic exDel 1 none).1 rfl,
   (deleteFranchise_atomic exDel 1 (some DeleteStep.roles)).2 DeleteStep.roles rfl⟩

/-- Claim C8: getFranchises returns the enriched detail (admins with ids, names and
emails, stores with totalRevenue) exactly for a caller holding the Admin role, and
for every other caller, the unauthenticated one included, only the reduced view of
each franchise: id, name and the id/name of its stores. -/
theorem getFranchises_admin_gating (s : DBState) (authUser : Option UserView) :
    ((∃ u, authUser = some u ∧ isRole u "admin" = true) →
      getFranchises s authUser = FranchisesResult.enriched (s.franchise.map (getFranchise s)))
    ∧ ((∀ u, authUser = some u → isRole u "admin" = false) →
      getFranchises s authUser =
        FranchisesResult.reduced
          (s.franchise.map (fun f =>
            ⟨f.id, f.name,
              (s.store.filter (fun st => st.franchiseId == f.id)).map
                (fun st => ⟨st.id, st.name⟩)⟩))) := by
  constructor
  · rintro ⟨u, rfl, hu⟩
    simp [getFranchises, hu]
  · intro h
    cases authUser with
    | none => rfl
    | some u => simp [getFranchises, h u rfl]

/-- Claim C8 witness: an Admin caller gets the enriched listing and an
unauthenticated caller gets the reduced listing, on a concrete store. -/
theorem getFranchises_admin_gating_witness :
    getFranchises exDel (some exAdminUser)
      = FranchisesResult.enriched (exDel.franchise.map (getFranchise exDel))
    ∧ getFranchises exDel none =
        FranchisesResult.reduced
          (exDel.franchise.map (fun f =>
            ⟨f.id, f.name,
              (exDel.store.filter (fun st => st.franchiseId == f.id)).map
                (fun st => ⟨st.id, st.name⟩)⟩)) :=
  ⟨(getFranchises_admin_gating exDel (some exAdminUser)).1 ⟨exAdminUser, rfl, by decide⟩,
   (getFranchises_admin_gating exDel none).2 (fun u h => by cases h)⟩

/-- Helper: the createFranchise validation loop fails with the 404 error naming the
first admin email that resolves to no user, provided every earlier email resolves. -/
theorem resolveFranchiseAdmins_first_unknown (s : DBState) :
    ∀ (pre : List FranchiseAdminReq) (a : FranchiseAdminReq) (post : List FranchiseAdminReq),
      (∀ b ∈ pre, (s.user.find? (fun u => u.email == b.email)).isSome) →
      (∀ u ∈ s.user, u.email ≠ a.email) →
      resolveFranchiseAdmins s (pre ++ a :: post) =
        Except.error (JsError.statusCode
          ⟨"unknown user for franchise admin " ++ a.email ++ " provided", 404⟩) := by
  intro pre
  induction pre with
  | nil =>
    intro a post _ ha
    have hf : s.user.find? (fun u => u.email == a.email) = none :=
      List.find?_eq_none.mpr (fun u hu => by simpa using ha u hu)
    simp [resolveFranchiseAdmins, hf]
  | cons b rest ih =>
    intro a post hpre ha
    have hb := hpre b (List.mem_cons_self b rest)
    rcases Option.isSome_iff_exists.mp hb with ⟨u, hu⟩
    have hrec := ih a post (fun c hc => hpre c (List.mem_cons_of_mem b hc)) ha
    simp [resolveFranchiseAdmins, hu, hrec]

/-- Claim C10: when an admin email of a createFranchise request does not resolve to
an existing user (here: the first unresolvable one, every email before it being
resolvable), the operation returns the 404 error naming that email and the state is
returned untouched: no franchise row and no role assignment was inserted. -/
theorem createFranchise_unknown_admin_no_insert (s : DBState) (fr : FranchiseReq)
    (pre : List FranchiseAdminReq) (a : FranchiseAdminReq) (post : List FranchiseAdminReq)
    (hsplit : fr.admins = pre ++ a :: post)
    (hpre : ∀ b ∈ pre, (s.user.find? (fun u => u.email == b.email)).isSome)
    (ha : ∀ u ∈ s.user, u.email ≠ a.email) :
    createFranchise s fr =
      (Except.error (JsError.statusCode
        ⟨"unknown user for franchise admin " ++ a.email ++ " provided", 404⟩), s) := by
  have hres := resolveFranchiseAdmins_first_unknown s pre a post hpre ha
  simp [createFranchise, hsplit, hres]

/-- Claim C10 witness: a request whose first admin resolves and whose second does
not fails with the 404 naming the second email, and the state is exactly the input
state. -/
theorem createFranchise_unknown_admin_no_insert_witness :
    createFranchise exSt ⟨"pizzaPocket", [⟨"a@x.com"⟩, ⟨"ghost@x.com"⟩]⟩ =
      (Except.error (JsError.statusCode
        ⟨"unknown user for franchise admin " ++ "ghost@x.com" ++ " provided", 404⟩), exSt) :=
  createFranchise_unknown_admin_no_insert exSt ⟨"pizzaPocket", [⟨"a@x.com"⟩, ⟨"ghost@x.com"⟩]⟩
    [⟨"a@x.com"⟩] ⟨"ghost@x.com"⟩ [] rfl (by decide) (by decide)

/-- Helper: the item-insertion loop never touches the dinerOrder table, on the
success path and on the failure path alike. -/
theorem insertOrderItems_dinerOrder :
    ∀ (items : List OrderItemReq) (s : DBState) (oid : Nat),
      (insertOrderItems s oid items).2.dinerOrder = s.dinerOrder := by
  intro items
  induction items with
  | nil => intro s oid; rfl
  | cons item rest ih =>
    intro s oid
    cases hg : getIdMenu s item.menuId with
    | error e => simp [insertOrderItems, hg]
    | ok m => simpa [insertOrderItems, hg] using ih _ oid

/-- Helper: when some item of the list references a menu id with no menu row, the
item-insertion loop ends in the bare No ID found error. -/
theorem insertOrderItems_unresolvable :
    ∀ (items : List OrderItemReq) (s : DBState) (oid : Nat),
      (∃ it ∈ items, ∀ m ∈ s.menu, m.id ≠ it.menuId) →
      ∃ s2, insertOrderItems s oid items = (Except.error (JsError.plain "No ID found"), s2) := by
  intro items
  induction items with
  | nil =>
    rintro s oid ⟨it, hit, _⟩
    cases hit
  | cons item rest ih =>
    rintro s oid ⟨it, hit, hm⟩
    cases hf : s.menu.filter (fun r => r.id == item.menuId) with
    | nil =>
      refine ⟨s, ?_⟩
      simp [insertOrderItems, getIdMenu, hf]
    | cons r t =>
      have hit2 : it ∈ rest := by
        rcases List.mem_cons.mp hit with heq | hmem
        · exfalso
          have hr : r ∈ s.menu.filter (fun x => x.id == item.menuId) := by
            rw [hf]; exact List.mem_cons_self r t
          have h2 := List.mem_filter.mp hr
          have h3 : r.id = item.menuId := by simpa using h2.2
          rw [← heq] at h3
          exact hm r h2.1 h3
        · exact hmem
      obtain ⟨s2, hrun⟩ := ih
        { s with
          orderItem := s.orderItem ++ [⟨s.nextOrderItemId, oid, r.id, item.description, item.price⟩],
          nextOrderItemId := s.nextOrderItemId + 1 } oid ⟨it, hit2, hm⟩
      refine ⟨s2, ?_⟩
      simp [insertOrderItems, getIdMenu, hf, hrun]

/-- Claim C1, counterexample: placing an order whose single item references menu id
99 against a store with an empty menu fails with the bare No ID found error, yet the
dinerOrder header row inserted before item validation is persisted in the resulting
state, contradicting the claim that no order row is persisted for such a request. -/
theorem addDinerOrder_orderRow_persisted_cex :
    (addDinerOrder exSt exDiner exBadReq).1 = Except.error (JsError.plain "No ID found")
    ∧ (addDinerOrder exSt exDiner exBadReq).2.dinerOrder = [⟨10, 1, 5, 6⟩] :=
  ⟨rfl, rfl⟩

/-- Claim C1 (amended): for every order with at least one unresolvable menu
reference, addDinerOrder fails with the bare Error No ID found (not a
StatusCodeError), and the dinerOrder header row inserted before item validation
remains persisted in the resulting state: there is no transaction and no rollback
around the header insert and the item loop. -/
theorem addDinerOrder_unresolvable_menu (s : DBState) (u : UserView) (order : OrderReq)
    (h : ∃ it ∈ order.items, ∀ m ∈ s.menu, m.id ≠ it.menuId) :
    (addDinerOrder s u order).1 = Except.error (JsError.plain "No ID found")
    ∧ (⟨s.nextOrderId, u.id, order.franchiseId, order.storeId⟩ : DinerOrderRow)
        ∈ (addDinerOrder s u order).2.dinerOrder := by
  obtain ⟨s2, hrun⟩ := insertOrderItems_unresolvable order.items
    { s with
      dinerOrder := s.dinerOrder ++ [⟨s.nextOrderId, u.id, order.franchiseId, order.storeId⟩],
      nextOrderId := s.nextOrderId + 1 } s.nextOrderId h
  have hdo := insertOrderItems_dinerOrder order.items
    { s with
      dinerOrder := s.dinerOrder ++ [⟨s.nextOrderId, u.id, order.franchiseId, order.storeId⟩],
      nextOrderId := s.nextOrderId + 1 } s.nextOrderId
  rw [hrun] at hdo
  have hdo2 : s2.dinerOrder
      = s.dinerOrder ++ [⟨s.nextOrderId, u.id, order.franchiseId, order.storeId⟩] := by
    simpa using hdo
  constructor
  · simp [addDinerOrder, hrun]
  · simp [addDinerOrder, hrun, hdo2]

/-- Claim C1 witness for the amended theorem: the concrete unresolvable order of the
counterexample satisfies the hypothesis, fails with No ID found, and its header row
is in the resulting store. -/
theorem addDinerOrder_unresolvable_menu_witness :
    (addDinerOrder exSt exDiner exBadReq).1 = Except.error (JsError.plain "No ID found")
    ∧ (⟨10, 1, 5, 6⟩ : DinerOrderRow) ∈ (addDinerOrder exSt exDiner exBadReq).2.dinerOrder :=
  addDinerOrder_unresolvable_menu exSt exDiner exBadReq (by decide)

/-- Claim C2: when the order was persisted and the factory replies non-ok, the route
responds with status 500, the body carries the reportUrl of the failed factory
response, and the dinerOrder row persisted before the factory call is still present
in the final state: nothing rolls it back. -/
theorem createOrder_factory_failure (s : DBState) (u : UserView) (req : OrderReq)
    (factory : FactoryResponse) (order : OrderResult) (s1 : DBState)
    (hok : addDinerOrder s u req = (Except.ok order, s1))
    (hfac : factory.ok = false) :
    createOrderHandler s u req factory =
      (Except.ok ⟨500, ⟨some "Failed to fulfill order at factory", none, none, factory.reportUrl⟩⟩, s1)
    ∧ (⟨s.nextOrderId, u.id, req.franchiseId, req.storeId⟩ : DinerOrderRow) ∈ s1.dinerOrder := by
  constructor
  · simp [createOrderHandler, hok, hfac]
  · have hdo := insertOrderItems_dinerOrder req.items
      { s with
        dinerOrder := s.dinerOrder ++ [⟨s.nextOrderId, u.id, req.franchiseId, req.storeId⟩],
        nextOrderId := s.nextOrderId + 1 } s.nextOrderId
    have hstate : s1.dinerOrder
        = s.dinerOrder ++ [⟨s.nextOrderId, u.id, req.franchiseId, req.storeId⟩] := by
      rcases hrun : insertOrderItems
          { s with
            dinerOrder := s.dinerOrder ++ [⟨s.nextOrderId, u.id, req.franchiseId, req.storeId⟩],
            nextOrderId := s.nextOrderId + 1 } s.nextOrderId req.items with ⟨r, s2⟩
      rw [hrun] at hdo
      cases r with
      | error e =>
        rw [show addDinerOrder s u req = (Except.error e, s2) by simp [addDinerOrder, hrun]] at hok
        cases hok
      | ok v =>
        rw [show addDinerOrder s u req
            = (Except.ok ⟨req.franchiseId, req.storeId, req.items, s.nextOrderId⟩, s2)
          by simp [addDinerOrder, hrun]] at hok
        cases hok
        exact hdo
    rw [hstate]
    simp

/-- Claim C2 witness: a concrete resolvable order together with a non-ok factory
response yields the 500 response carrying the factory reportUrl, with the order row
in the final store. -/
theorem createOrder_factory_failure_witness :
    createOrderHandler exStMenu exDiner exGoodReq exFactFail =
      (Except.ok ⟨500, ⟨some "Failed to fulfill order at factory", none, none,
        some "http://report.example"⟩⟩, (addDinerOrder exStMenu exDiner exGoodReq).2)
    ∧ (⟨10, 1, 5, 6⟩ : DinerOrderRow) ∈ (addDinerOrder exStMenu exDiner exGoodReq).2.dinerOrder :=
  createOrder_factory_failure exStMenu exDiner exGoodReq exFactFail
    ⟨5, 6, exGoodReq.items, 10⟩ (addDinerOrder exStMenu exDiner exGoodReq).2 rfl rfl

/-- Claim C6, counterexample: with one stored user, updateUser with a new email and
no password persists the email change, yet the call does not return the refreshed
User: the final this.getUser(email, password) re-login runs with an undefined
password and fails. -/
theorem updateUser_single_field_cex :
    (updateUser exSt 1 (some "b@x.com") none).1
      = Except.error (JsError.plain "data and hash arguments required")
    ∧ (updateUser exSt 1 (some "b@x.com") none).2.user
      = [⟨1, "n", "b@x.com", bcryptHash "p"⟩] :=
  ⟨rfl, rfl⟩

/-- Helper: the row update applied by updateUser when a nonempty new email and a
nonempty new password are both supplied. -/
theorem applyUserUpdates_both (e2 p2 : String) (he2 : e2 ≠ "") (hp2 : p2 ≠ "") (r : UserRow) :
    applyUserUpdates (some e2) (some p2) r
      = { r with email := e2, password := bcryptHash p2 } := by
  simp [applyUserUpdates, he2, hp2]

/-- Helper: searching the updated user list by the new email finds the updated row,
when the target row is the only one with the target id and no row already had the
new email. -/
theorem find_updated_email (uid : Nat) (e2 p2 : String) (u : UserRow) :
    ∀ l : List UserRow, u ∈ l → u.id = uid →
      (∀ v ∈ l, v.id = uid → v = u) →
      (∀ v ∈ l, v.email ≠ e2) →
      (l.map (fun r =>
          if r.id == uid then { r with email := e2, password := bcryptHash p2 } else r)).find?
          (fun r => r.email == e2)
        = some { u with email := e2, password := bcryptHash p2 } := by
  intro l
  induction l with
  | nil => intro h; cases h
  | cons a t ih =>
    intro hmem huid hidu hfresh
    by_cases ha : a.id = uid
    · have haa : a = u := hidu a (List.mem_cons_self a t) ha
      subst haa
      simp [ha, List.find?_cons]
    · have hne : a.email ≠ e2 := hfresh a (List.mem_cons_self a t)
      have hmem2 : u ∈ t := by
        rcases List.mem_cons.mp hmem with rfl | h
        · exact absurd huid ha
        · exact h
      simp only [List.map_cons]
      rw [if_neg (by simpa using ha)]
      rw [List.find?_cons_of_neg _ (by simpa using hne)]
      exact ih hmem2 huid (fun v hv h => hidu v (List.mem_cons_of_mem a hv) h)
        (fun v hv => hfresh v (List.mem_cons_of_mem a hv))

/-- Helper: after the update no row carries the old email any more, when the old
email was unique to the updated row and differs from the new email. -/
theorem find_old_email_none (uid : Nat) (e2 p2 : String) (u : UserRow)
    (huid : u.id = uid) (hue : u.email ≠ e2) :
    ∀ l : List UserRow,
      (∀ v ∈ l, v.email = u.email → v = u) →
      (l.map (fun r =>
          if r.id == uid then { r with email := e2, password := bcryptHash p2 } else r)).find?
          (fun r => r.email == u.email)
        = none := by
  intro l
  induction l with
  | nil => intro _; rfl
  | cons a t ih =>
    intro holdu
    have hrest := ih (fun v hv h => holdu v (List.mem_cons_of_mem a hv) h)
    by_cases ha : a.id = uid
    · simp only [List.map_cons]
      rw [if_pos (by simpa using ha)]
      rw [List.find?_cons_of_neg _ (by simpa using fun h => hue h.symm)]
      exact hrest
    · have hne : a.email ≠ u.email := by
        intro h
        exact ha (by rw [holdu a (List.mem_cons_self a t) h]; exact huid)
      simp only [List.map_cons]
      rw [if_neg (by simpa using ha)]
      rw [List.find?_cons_of_neg _ (by simpa using hne)]
      exact hrest

/-- Helper: getUser succeeds when the email lookup finds a row and the password
matches its stored hash. -/
theorem getUser_ok (s : DBState) (e p : String) (u : UserRow)
    (hfind : s.user.find? (fun r => r.email == e) = some u)
    (hcmp : bcryptCompare p u.password = true) :
    getUser s (some e) (some p) = Except.ok
      { id := u.id, name := u.name, email := u.email,
        roles := (s.userRole.filter (fun r => r.userId == u.id)).map
          (fun r =>
            { role := r.role,
              objectId := if r.objectId == 0 then none else some r.objectId }) } := by
  simp [getUser, hfind, hcmp]

/-- Helper: getUser fails with unknown user 404 when the email lookup finds no
row. -/
theorem getUser_unknown (s : DBState) (e p : String)
    (hfind : s.user.find? (fun r => r.email == e) = none) :
    getUser s (some e) (some p)
      = Except.error (JsError.statusCode ⟨"unknown user", 404⟩) := by
  simp [getUser, hfind]

/-- Claim C6 (amended): when both a new email and a new password are provided,
updateUser re-hashes the password, updates the email, persists both and returns the
refreshed User; a Login against the updated store with the new email and that
password succeeds with the same User, and a Login with the old email fails with the
unknown user 404 error.  When only one of the two is provided the change is still
persisted but the call itself fails instead of returning the refreshed User (see the
counterexample). -/
theorem updateUser_both_fields_roundtrip (s : DBState) (uid : Nat) (e2 p2 : String)
    (u : UserRow)
    (hmem : u ∈ s.user) (huid : u.id = uid)
    (hidu : ∀ v ∈ s.user, v.id = uid → v = u)
    (hfresh : ∀ v ∈ s.user, v.email ≠ e2)
    (holdu : ∀ v ∈ s.user, v.email = u.email → v = u)
    (he2 : e2 ≠ "") (hp2 : p2 ≠ "") :
    ∃ view : UserView,
      (updateUser s uid (some e2) (some p2)).1 = Except.ok view
      ∧ view.id = u.id ∧ view.name = u.name ∧ view.email = e2
      ∧ getUser (updateUser s uid (some e2) (some p2)).2 (some e2) (some p2) = Except.ok view
      ∧ ∀ q, getUser (updateUser s uid (some e2) (some p2)).2 (some u.email) (some q)
          = Except.error (JsError.statusCode ⟨"unknown user", 404⟩) := by
  have hcond : (jsTruthy (some p2) || jsTruthy (some e2)) = true := by
    simp [jsTruthy, hp2]
  have hfun : (fun r : UserRow => if r.id == uid then applyUserUpdates (some e2) (some p2) r else r)
      = (fun r : UserRow =>
          if r.id == uid then { r with email := e2, password := bcryptHash p2 } else r) := by
    funext r
    rw [applyUserUpdates_both e2 p2 he2 hp2]
  have hs1 : (updateUser s uid (some e2) (some p2)).2
      = { s with
          user := s.user.map (fun r =>
            if r.id == uid then { r with email := e2, password := bcryptHash p2 } else r) } := by
    unfold updateUser
    rw [hfun, hcond]
    rfl
  have hfind := find_updated_email uid e2 p2 u s.user hmem huid hidu hfresh
  have hnone := find_old_email_none uid e2 p2 u huid (hfresh u hmem) s.user holdu
  have hget : getUser (updateUser s uid (some e2) (some p2)).2 (some e2) (some p2)
      = Except.ok
        { id := u.id, name := u.name, email := e2,
          roles := (s.userRole.filter (fun r => r.userId == u.id)).map
            (fun r =>
              { role := r.role,
                objectId := if r.objectId == 0 then none else some r.objectId }) } := by
    rw [hs1]
    exact getUser_ok
      { s with
        user := s.user.map (fun r =>
          if r.id == uid then { r with email := e2, password := bcryptHash p2 } else r) }
      e2 p2 ⟨u.id, u.name, e2, bcryptHash p2⟩ hfind (by simp [bcryptCompare])
  refine ⟨{ id := u.id, name := u.name, email := e2,
            roles := (s.userRole.filter (fun r => r.userId == u.id)).map
              (fun r =>
                { role := r.role,
                  objectId := if r.objectId == 0 then none else some r.objectId }) },
    hget, rfl, rfl, rfl, hget, ?_⟩
  intro q
  rw [hs1]
  exact getUser_unknown _ u.email q hnone

/-- Claim C6 witness: a concrete update of both email and password returns the
refreshed user, the new credentials log in to the same user, and the old email gets
the unknown user 404 error. -/
theorem updateUser_both_fields_roundtrip_witness :
    ∃ view : UserView,
      (updateUser exSt 1 (some "c@x.com") (some "pw2")).1 = Except.ok view
      ∧ view.id = 1 ∧ view.name = "n" ∧ view.email = "c@x.com"
      ∧ getUser (updateUser exSt 1 (some "c@x.com") (some "pw2")).2
          (some "c@x.com") (some "pw2") = Except.ok view
      ∧ ∀ q, getUser (updateUser exSt 1 (some "c@x.com") (some "pw2")).2
          (some "a@x.com") (some q)
          = Except.error (JsError.statusCode ⟨"unknown user", 404⟩) :=
  updateUser_both_fields_roundtrip exSt 1 "c@x.com" "pw2" ⟨1, "n", "a@x.com", bcryptHash "p"⟩
    (by decide) (by decide) (by decide) (by decide) (by decide) (by decide) (by decide)
